import Mathlib

/-
Verification of the Porta stable-data validator.

The embedding below translates the two Python modules of the repository,
src/validators.py and src/validate_charger_usages.py, into Lean.
Python dictionaries with optional keys become structures with Option
fields (a missing key is `none`); Python integers become `Int`;
a Python function that can raise becomes a function into
`Except String _`, with `Except.error` standing for a raised exception
(the TypeError raised when `None` is used in integer subtraction).
-/

namespace PortaValidator

/-- A connector record from a usage snapshot.  In the Python source a
connector is a dictionary read with `connector.get ("status")`, which
yields `None` when the key is missing, hence the `Option Int` field. -/
structure Connector where
  status : Option Int
deriving Repr, DecidableEq

/-- A stall record: a dictionary read with `stall.get ("connectors", [])`.
The default-to-empty-list behaviour is kept by making the field a plain
list (an absent key behaves exactly like an empty list in the source). -/
structure Stall where
  connectors : List Connector
deriving Repr, DecidableEq

/-- One usage snapshot (`usage_data` in the source).  Every key is read
with `.get`, so every field is optional except `stallUsage`, whose
absent-key default is the empty list. -/
structure UsageSnapshot where
  timestamp : Option String
  timezone : Option String
  stallsAvailable : Option Int
  totalStalls : Option Int
  stallUsage : List Stall
deriving Repr, DecidableEq

/-- An error record appended to the `errors` list by the validators:
a dictionary with keys `error_type`, `message` and `timestamp`. -/
structure ValidationError where
  error_type : String
  message : String
  timestamp : String
deriving Repr, DecidableEq

/-- Builds an error record, mirroring the dictionary literals of the source. -/
def mkError (error_type message timestamp : String) : ValidationError :=
  ⟨error_type, message, timestamp⟩

/-- How Python renders a possibly-missing integer inside an f-string:
`None` prints as "None", an integer prints as its decimal form. -/
def pyRepr : Option Int → String
  | none => "None"
  | some n => toString n

/-- The inner connector loop of `validate_stalls_available`
(src/validators.py lines 77-84): scan the connectors in order and stop
at the first one whose status is not `-2`; the result is that
connector's status (`none` when every connector has status `-2`,
including the empty list).  A connector with a missing `status` key
compares unequal to `-2` in Python, so it counts as a valid reading. -/
def firstValidStatus : List Connector → Option (Option Int)
  | [] => none
  | connector :: rest =>
      if connector.status ≠ some (-2) then some connector.status
      else firstValidStatus rest

/-- The `stall_has_valid_status` flag of the stall loop
(src/validators.py lines 75, 81): the stall has some connector whose
status is not `-2`. -/
def stall_has_valid_status (stall : Stall) : Bool :=
  (firstValidStatus stall.connectors).isSome

/-- The `stall_available` flag of the stall loop (src/validators.py
lines 76, 82-83): the first connector with a non-(-2) status read `0`. -/
def stall_available (stall : Stall) : Bool :=
  firstValidStatus stall.connectors == some (some 0)

/-- The `total_stalls_calculated` accumulator (src/validators.py
lines 67, 85-86): number of stalls with at least one valid reading. -/
def total_stalls_calculated (stall_usage : List Stall) : Int :=
  ((stall_usage.filter stall_has_valid_status).length : Int)

/-- The `stalls_available_calculated` accumulator (src/validators.py
lines 68, 87-88): number of stalls whose first valid reading was `0`. -/
def stalls_available_calculated (stall_usage : List Stall) : Int :=
  ((stall_usage.filter stall_available).length : Int)

/-- The `all_connectors_status_minus2` flag (src/validators.py lines
71, 79-80): it stays `True` exactly when no stall ever reaches a
connector whose status differs from `-2`. -/
def all_connectors_status_minus2 (stall_usage : List Stall) : Bool :=
  stall_usage.all fun stall => (firstValidStatus stall.connectors).isNone

/-- The error record built at src/validators.py lines 95-105. -/
def stalls_available_mismatch_error (timestamp : String) (reported : Option Int)
    (calculated : Int) : ValidationError :=
  mkError "Stalls Available Mismatch"
    ("Stalls available mismatch at " ++ timestamp ++ ": Reported " ++ pyRepr reported
      ++ ", Calculated " ++ toString calculated)
    timestamp

/-- The error record built at src/validators.py lines 107-117. -/
def total_stalls_mismatch_error (timestamp : String) (reported : Option Int)
    (calculated : Int) : ValidationError :=
  mkError "Total Stalls Mismatch"
    ("Total stalls mismatch at " ++ timestamp ++ ": Reported " ++ pyRepr reported
      ++ ", Calculated " ++ toString calculated)
    timestamp

/-- The error record built at src/validators.py lines 122-132. -/
def stalls_not_available_mismatch_error (timestamp : String)
    (reported calculated : Int) : ValidationError :=
  mkError "Stalls Not Available Mismatch"
    ("Stalls not available mismatch at " ++ timestamp ++ ": Reported " ++ toString reported
      ++ ", Calculated " ++ toString calculated)
    timestamp

/-- The error record built at src/validators.py lines 135-146. -/
def total_stalls_calculation_error (timestamp : String)
    (total reportedAvail notAvail : Int) : ValidationError :=
  mkError "Total Stalls Calculation Error"
    ("Total stalls calculation error at " ++ timestamp ++ ": Reported totalStalls ("
      ++ toString total ++ ") does not equal stallsAvailable (" ++ toString reportedAvail
      ++ ") + stallsNotAvailable (" ++ toString notAvail ++ ")")
    timestamp

/-- `validate_stalls_available` from src/validators.py lines 56-148.
The stall loop is rendered through `firstValidStatus` and the three
accumulator definitions above.  The subtraction at line 119,
`total_stalls_reported - stalls_available_reported`, raises a Python
TypeError when either reported field is `None`; that raise is the
`Except.error` branch (the two comparison errors already appended at
that point are lost with the exception, exactly as in Python). -/
def validate_stalls_available (usage_data : UsageSnapshot) (charger_id : String) :
    Except String (List ValidationError) :=
  let timestamp := usage_data.timestamp.getD "Unknown Timestamp"
  let stalls_available_reported := usage_data.stallsAvailable
  let total_stalls_reported := usage_data.totalStalls
  let stall_usage := usage_data.stallUsage
  if all_connectors_status_minus2 stall_usage then
    Except.ok []
  else
    let e1 :=
      if stalls_available_reported ≠ some (stalls_available_calculated stall_usage) then
        [stalls_available_mismatch_error timestamp stalls_available_reported
          (stalls_available_calculated stall_usage)]
      else []
    let e2 :=
      if total_stalls_reported ≠ some (total_stalls_calculated stall_usage) then
        [total_stalls_mismatch_error timestamp total_stalls_reported
          (total_stalls_calculated stall_usage)]
      else []
    match total_stalls_reported, stalls_available_reported with
    | some t, some a =>
      let stalls_not_available_reported := t - a
      let stalls_not_available_calculated :=
        total_stalls_calculated stall_usage - stalls_available_calculated stall_usage
      let e3 :=
        if stalls_not_available_reported ≠ stalls_not_available_calculated then
          [stalls_not_available_mismatch_error timestamp stalls_not_available_reported
            stalls_not_available_calculated]
        else []
      let e4 :=
        if t ≠ a + stalls_not_available_reported then
          [total_stalls_calculation_error timestamp t a stalls_not_available_reported]
        else []
      Except.ok (e1 ++ e2 ++ e3 ++ e4)
    | _, _ => Except.error "TypeError"

/-- `validate_timezone_data` from src/validators.py lines 20-44.  The
IANA-database lookup `validate_timezone` (pytz, an external library) is
a parameter.  Python's `if not timezone` is true for both a missing key
and an empty string. -/
def validate_timezone_data (validate_timezone : String → Bool)
    (usage_data : UsageSnapshot) (charger_id : String) : List ValidationError :=
  let timestamp := usage_data.timestamp.getD "Unknown Timestamp"
  match usage_data.timezone with
  | none =>
      [mkError "Timezone Missing"
        ("Timezone missing in usage data at " ++ timestamp) timestamp]
  | some timezone =>
      if timezone.isEmpty then
        [mkError "Timezone Missing"
          ("Timezone missing in usage data at " ++ timestamp) timestamp]
      else if validate_timezone timezone then []
      else
        [mkError "Invalid Timezone"
          ("Invalid timezone \x27" ++ timezone ++ "\x27 in usage data at " ++ timestamp)
          timestamp]

/-- Modelled from the spec: the per-snapshot validation pass of the
Per-Charger Orchestrator, which runs the timezone-data validator and
then the stall validator on the same snapshot and concatenates their
findings (timezone errors first).  src/validators.py defines the two
validators without a caller, and src/validate_charger_usages.py inlines
an older revision of the stall logic, so this combining step exists
only in the spec (sections 4.3 and 4.4). -/
def validate_usage_snapshot (validate_timezone : String → Bool)
    (usage_data : UsageSnapshot) (charger_id : String) :
    Except String (List ValidationError) :=
  match validate_stalls_available usage_data charger_id with
  | Except.error e => Except.error e
  | Except.ok stall_errors =>
      Except.ok (validate_timezone_data validate_timezone usage_data charger_id
        ++ stall_errors)

/-- The error types of a validation outcome: the `error_type` fields of
the returned list, or the empty list when the call raised. -/
def errorTypes : Except String (List ValidationError) → List String
  | Except.ok l => l.map ValidationError.error_type
  | Except.error _ => []

/-- Whether an `Except` outcome is a normal return (no exception). -/
def isOk {ε α : Type} : Except ε α → Bool
  | Except.ok _ => true
  | Except.error _ => false

/-- Decidable substring test, used to state the spec's
"message contains ..." properties. -/
def strContainsSub (s pat : String) : Bool :=
  (List.range (s.data.length + 1)).any fun i => pat.data.isPrefixOf (s.data.drop i)

/-- The three-stall snapshot used by the spec's examples: one stall
with an available connector, one with an occupied connector, one whose
only connector reports the sentinel. -/
def snapshot_0_1_m2 (avail total : Option Int) : UsageSnapshot :=
  ⟨none, none, avail, total, [⟨[⟨some 0⟩]⟩, ⟨[⟨some 1⟩]⟩, ⟨[⟨some (-2)⟩]⟩]⟩

/-- Prepending connectors that all read the sentinel does not change
which connector the scan stops at. -/
theorem firstValidStatus_append (pre rest : List Connector)
    (h : ∀ x ∈ pre, x.status = some (-2)) :
    firstValidStatus (pre ++ rest) = firstValidStatus rest := by
  induction pre with
  | nil => rfl
  | cons c l ih =>
      have hc : c.status = some (-2) := h c (by simp)
      have hl : ∀ x ∈ l, x.status = some (-2) := fun x hx => h x (by simp [hx])
      simp [firstValidStatus, hc, ih hl]

/-- A stall all of whose connectors read the sentinel yields no valid reading. -/
theorem firstValidStatus_eq_none (cs : List Connector)
    (h : ∀ x ∈ cs, x.status = some (-2)) :
    firstValidStatus cs = none := by
  have := firstValidStatus_append cs [] h
  simpa using this

/-- When the all-sentinel flag is set the validator returns at line 93
with the empty error list. -/
theorem validate_stalls_available_skip (u : UsageSnapshot) (cid : String)
    (hskip : all_connectors_status_minus2 u.stallUsage = true) :
    validate_stalls_available u cid = Except.ok [] := by
  simp [validate_stalls_available, hskip]

/-- When both reported fields carry integers, `validate_stalls_available`
reduces to the four guarded comparisons of src/validators.py lines
95-146 (or to the all-sentinel skip). -/
theorem validate_stalls_available_eq (u : UsageSnapshot) (cid : String) (a t : Int)
    (ha : u.stallsAvailable = some a) (ht : u.totalStalls = some t) :
    validate_stalls_available u cid =
      if all_connectors_status_minus2 u.stallUsage then Except.ok []
      else
        Except.ok (
          (if (some a : Option Int) ≠ some (stalls_available_calculated u.stallUsage) then
              [stalls_available_mismatch_error (u.timestamp.getD "Unknown Timestamp")
                (some a) (stalls_available_calculated u.stallUsage)]
            else [])
          ++ (if (some t : Option Int) ≠ some (total_stalls_calculated u.stallUsage) then
              [total_stalls_mismatch_error (u.timestamp.getD "Unknown Timestamp")
                (some t) (total_stalls_calculated u.stallUsage)]
            else [])
          ++ (if t - a ≠ total_stalls_calculated u.stallUsage
                - stalls_available_calculated u.stallUsage then
              [stalls_not_available_mismatch_error (u.timestamp.getD "Unknown Timestamp")
                (t - a)
                (total_stalls_calculated u.stallUsage - stalls_available_calculated u.stallUsage)]
            else [])
          ++ (if t ≠ a + (t - a) then
              [total_stalls_calculation_error (u.timestamp.getD "Unknown Timestamp")
                t a (t - a)]
            else [])) := by
  simp only [validate_stalls_available, ha, ht]

/-- In the non-skip integer case, the error-type list of the result is
the concatenation of the four conditional tags, in source order. -/
theorem errorTypes_characterization (u : UsageSnapshot) (cid : String) (a t : Int)
    (ha : u.stallsAvailable = some a) (ht : u.totalStalls = some t)
    (hskip : all_connectors_status_minus2 u.stallUsage = false) :
    errorTypes (validate_stalls_available u cid) =
      (if a ≠ stalls_available_calculated u.stallUsage then
          ["Stalls Available Mismatch"] else [])
      ++ (if t ≠ total_stalls_calculated u.stallUsage then
          ["Total Stalls Mismatch"] else [])
      ++ (if t - a ≠ total_stalls_calculated u.stallUsage
            - stalls_available_calculated u.stallUsage then
          ["Stalls Not Available Mismatch"] else [])
      ++ (if t ≠ a + (t - a) then
          ["Total Stalls Calculation Error"] else []) := by
  rw [validate_stalls_available_eq u cid a t ha ht]
  simp only [hskip, Bool.false_eq_true, if_false, errorTypes, List.map_append,
    apply_ite (List.map ValidationError.error_type), List.map_cons, List.map_nil,
    stalls_available_mismatch_error, total_stalls_mismatch_error,
    stalls_not_available_mismatch_error, total_stalls_calculation_error, mkError,
    ne_eq, Option.some.injEq]

/-- Membership of the available-mismatch tag, in the non-skip integer case. -/
theorem mem_available_mismatch_iff (u : UsageSnapshot) (cid : String) (a t : Int)
    (ha : u.stallsAvailable = some a) (ht : u.totalStalls = some t)
    (hskip : all_connectors_status_minus2 u.stallUsage = false) :
    ("Stalls Available Mismatch" ∈ errorTypes (validate_stalls_available u cid)) ↔
      a ≠ stalls_available_calculated u.stallUsage := by
  rw [errorTypes_characterization u cid a t ha ht hskip]
  split_ifs <;> simp_all

/-- Membership of the total-mismatch tag, in the non-skip integer case. -/
theorem mem_total_mismatch_iff (u : UsageSnapshot) (cid : String) (a t : Int)
    (ha : u.stallsAvailable = some a) (ht : u.totalStalls = some t)
    (hskip : all_connectors_status_minus2 u.stallUsage = false) :
    ("Total Stalls Mismatch" ∈ errorTypes (validate_stalls_available u cid)) ↔
      t ≠ total_stalls_calculated u.stallUsage := by
  rw [errorTypes_characterization u cid a t ha ht hskip]
  split_ifs <;> simp_all

/-- Membership of the not-available-mismatch tag, in the non-skip integer case. -/
theorem mem_not_available_mismatch_iff (u : UsageSnapshot) (cid : String) (a t : Int)
    (ha : u.stallsAvailable = some a) (ht : u.totalStalls = some t)
    (hskip : all_connectors_status_minus2 u.stallUsage = false) :
    ("Stalls Not Available Mismatch" ∈ errorTypes (validate_stalls_available u cid)) ↔
      t - a ≠ total_stalls_calculated u.stallUsage
        - stalls_available_calculated u.stallUsage := by
  rw [errorTypes_characterization u cid a t ha ht hskip]
  split_ifs <;> simp_all

/-- Membership of the calculation-error tag, in the non-skip integer case. -/
theorem mem_calculation_error_iff (u : UsageSnapshot) (cid : String) (a t : Int)
    (ha : u.stallsAvailable = some a) (ht : u.totalStalls = some t)
    (hskip : all_connectors_status_minus2 u.stallUsage = false) :
    ("Total Stalls Calculation Error" ∈ errorTypes (validate_stalls_available u cid)) ↔
      t ≠ a + (t - a) := by
  rw [errorTypes_characterization u cid a t ha ht hskip]
  split_ifs <;> simp_all

/-- C1: if every connector of every stall reports status `-2`, then
`validate_stalls_available` returns the empty error list, whatever the
reported `stallsAvailable` and `totalStalls` values are. -/
theorem c1_all_sentinel_no_errors (u : UsageSnapshot) (cid : String)
    (h : ∀ s ∈ u.stallUsage, ∀ c ∈ s.connectors, c.status = some (-2)) :
    validate_stalls_available u cid = Except.ok [] := by
  have hall : all_connectors_status_minus2 u.stallUsage = true := by
    simp only [all_connectors_status_minus2, List.all_eq_true]
    intro s hs
    simp [firstValidStatus_eq_none s.connectors (h s hs)]
  exact validate_stalls_available_skip u cid hall

/-- Witness for C1: a snapshot whose single stall has two sentinel
connectors, with wildly wrong reported counts, produces no error. -/
theorem c1_all_sentinel_no_errors_witness :
    (∀ s ∈ [(⟨[⟨some (-2)⟩, ⟨some (-2)⟩]⟩ : Stall)], ∀ c ∈ s.connectors,
        c.status = some (-2)) ∧
    validate_stalls_available
        ⟨none, none, some 99, some (-5), [⟨[⟨some (-2)⟩, ⟨some (-2)⟩]⟩]⟩ "charger1"
      = Except.ok [] :=
  ⟨by decide,
   c1_all_sentinel_no_errors
     ⟨none, none, some 99, some (-5), [⟨[⟨some (-2)⟩, ⟨some (-2)⟩]⟩]⟩ "charger1"
     (by decide)⟩

/-- C2: the connector scan stops at the first connector whose status is
not `-2`; the stall counts as having a valid reading, and it counts as
available exactly when that connector's status is `0`; connectors after
the first valid one (the `post` list) never affect the result. -/
theorem c2_first_valid_wins (pre : List Connector) (c : Connector) (post : List Connector)
    (hpre : ∀ x ∈ pre, x.status = some (-2)) (hc : c.status ≠ some (-2)) :
    firstValidStatus (pre ++ c :: post) = some c.status ∧
    stall_has_valid_status ⟨pre ++ c :: post⟩ = true ∧
    (stall_available ⟨pre ++ c :: post⟩ = true ↔ c.status = some 0) := by
  have h1 : firstValidStatus (pre ++ c :: post) = some c.status := by
    rw [firstValidStatus_append pre (c :: post) hpre]
    simp [firstValidStatus, hc]
  refine ⟨h1, ?_, ?_⟩
  · simp [stall_has_valid_status, h1]
  · simp [stall_available, h1]

/-- Witness for C2: the stall with connector statuses `[-2, 0]` counts
as available, and its scan stops at the second connector. -/
theorem c2_first_valid_wins_witness :
    (∀ x ∈ [(⟨some (-2)⟩ : Connector)], x.status = some (-2)) ∧
    ((⟨some 0⟩ : Connector).status ≠ some (-2)) ∧
    stall_available ⟨[⟨some (-2)⟩, ⟨some 0⟩]⟩ = true ∧
    firstValidStatus [⟨some (-2)⟩, ⟨some 0⟩] = some (some 0) :=
  ⟨by decide, by decide,
   (c2_first_valid_wins [⟨some (-2)⟩] ⟨some 0⟩ [] (by decide) (by decide)).2.2.mpr rfl,
   (c2_first_valid_wins [⟨some (-2)⟩] ⟨some 0⟩ [] (by decide) (by decide)).1⟩

/-- C10: a snapshot with no stalls, or all of whose stalls have no
connectors, takes the same all-sentinel skip path and returns the empty
error list regardless of the reported counts. -/
theorem c10_no_connectors_skip (u : UsageSnapshot) (cid : String)
    (h : u.stallUsage = [] ∨ ∀ s ∈ u.stallUsage, s.connectors = []) :
    validate_stalls_available u cid = Except.ok [] := by
  have hall : all_connectors_status_minus2 u.stallUsage = true := by
    cases h with
    | inl h0 => simp [all_connectors_status_minus2, h0]
    | inr h1 =>
        simp only [all_connectors_status_minus2, List.all_eq_true]
        intro s hs
        simp [h1 s hs, firstValidStatus]
  exact validate_stalls_available_skip u cid hall

/-- Witness for C10: a snapshot whose two stalls both have empty
connector lists, with mismatched reported counts, produces no error. -/
theorem c10_no_connectors_skip_witness :
    ((⟨none, none, some 3, some 4, [⟨[]⟩, ⟨[]⟩]⟩ : UsageSnapshot).stallUsage = []
      ∨ ∀ s ∈ (⟨none, none, some 3, some 4, [⟨[]⟩, ⟨[]⟩]⟩ : UsageSnapshot).stallUsage,
          s.connectors = []) ∧
    validate_stalls_available ⟨none, none, some 3, some 4, [⟨[]⟩, ⟨[]⟩]⟩ "charger1"
      = Except.ok [] :=
  ⟨Or.inr (by decide),
   c10_no_connectors_skip ⟨none, none, some 3, some 4, [⟨[]⟩, ⟨[]⟩]⟩ "charger1"
     (Or.inr (by decide))⟩

/-- C6: with integer reported fields, the `Total Stalls Calculation
Error` branch at src/validators.py line 135 is unreachable, because the
reported not-available count is derived as `totalStalls -
stallsAvailable` from the same two reported values. -/
theorem c6_calculation_error_unreachable (u : UsageSnapshot) (cid : String) (a t : Int)
    (ha : u.stallsAvailable = some a) (ht : u.totalStalls = some t) :
    "Total Stalls Calculation Error" ∉ errorTypes (validate_stalls_available u cid) := by
  by_cases hskip : all_connectors_status_minus2 u.stallUsage = true
  · rw [validate_stalls_available_skip u cid hskip]
    simp [errorTypes]
  · have hskip' : all_connectors_status_minus2 u.stallUsage = false :=
      Bool.eq_false_iff.mpr hskip
    intro hmem
    have := (mem_calculation_error_iff u cid a t ha ht hskip').mp hmem
    omega

/-- Witness for C6: even a snapshot whose reported counts are both
wrong never yields the calculation error. -/
theorem c6_calculation_error_unreachable_witness :
    (⟨none, none, some 5, some 7, [⟨[⟨some 3⟩]⟩]⟩ : UsageSnapshot).stallsAvailable
        = some 5 ∧
    (⟨none, none, some 5, some 7, [⟨[⟨some 3⟩]⟩]⟩ : UsageSnapshot).totalStalls = some 7 ∧
    "Total Stalls Calculation Error" ∉
      errorTypes (validate_stalls_available
        ⟨none, none, some 5, some 7, [⟨[⟨some 3⟩]⟩]⟩ "charger1") :=
  ⟨rfl, rfl,
   c6_calculation_error_unreachable
     ⟨none, none, some 5, some 7, [⟨[⟨some 3⟩]⟩]⟩ "charger1" 5 7 rfl rfl⟩

/-- C9: with integer reported fields, a `Stalls Not Available Mismatch`
error is always accompanied by a `Stalls Available Mismatch` or a
`Total Stalls Mismatch` error: if both the available counts and the
total counts agreed, the two not-available differences would agree too. -/
theorem c9_not_available_implies_other (u : UsageSnapshot) (cid : String) (a t : Int)
    (ha : u.stallsAvailable = some a) (ht : u.totalStalls = some t)
    (h : "Stalls Not Available Mismatch" ∈ errorTypes (validate_stalls_available u cid)) :
    "Stalls Available Mismatch" ∈ errorTypes (validate_stalls_available u cid) ∨
    "Total Stalls Mismatch" ∈ errorTypes (validate_stalls_available u cid) := by
  by_cases hskip : all_connectors_status_minus2 u.stallUsage = true
  · rw [validate_stalls_available_skip u cid hskip] at h
    simp [errorTypes] at h
  · have hskip' : all_connectors_status_minus2 u.stallUsage = false :=
      Bool.eq_false_iff.mpr hskip
    have hna := (mem_not_available_mismatch_iff u cid a t ha ht hskip').mp h
    by_cases h1 : a = stalls_available_calculated u.stallUsage
    · right
      refine (mem_total_mismatch_iff u cid a t ha ht hskip').mpr ?_
      omega
    · left
      exact (mem_available_mismatch_iff u cid a t ha ht hskip').mpr h1

/-- Witness for C9: reported `stallsAvailable = 1`, `totalStalls = 0`
against a single available stall yields the not-available mismatch
together with the total mismatch. -/
theorem c9_not_available_implies_other_witness :
    (⟨none, none, some 1, some 0, [⟨[⟨some 0⟩]⟩]⟩ : UsageSnapshot).stallsAvailable
        = some 1 ∧
    (⟨none, none, some 1, some 0, [⟨[⟨some 0⟩]⟩]⟩ : UsageSnapshot).totalStalls = some 0 ∧
    "Stalls Not Available Mismatch" ∈
      errorTypes (validate_stalls_available
        ⟨none, none, some 1, some 0, [⟨[⟨some 0⟩]⟩]⟩ "charger1") ∧
    ("Stalls Available Mismatch" ∈
        errorTypes (validate_stalls_available
          ⟨none, none, some 1, some 0, [⟨[⟨some 0⟩]⟩]⟩ "charger1") ∨
      "Total Stalls Mismatch" ∈
        errorTypes (validate_stalls_available
          ⟨none, none, some 1, some 0, [⟨[⟨some 0⟩]⟩]⟩ "charger1")) :=
  ⟨rfl, rfl, by decide,
   c9_not_available_implies_other
     ⟨none, none, some 1, some 0, [⟨[⟨some 0⟩]⟩]⟩ "charger1" 1 0 rfl rfl (by decide)⟩

/-- Counterexample for C3: a snapshot with an absent `stallsAvailable`
and an absent `totalStalls` that is not all-sentinel makes
`validate_stalls_available` raise (the TypeError of the subtraction at
src/validators.py line 119) instead of returning an error list. -/
theorem c3_counterexample :
    validate_stalls_available ⟨none, none, none, none, [⟨[⟨some 0⟩]⟩]⟩ "charger1"
      = Except.error "TypeError" := by
  rfl

/-- C3 amended: `validate_stalls_available` does not raise provided
both reported fields are present, or the snapshot takes the
all-sentinel skip path (where the raising subtraction is never reached). -/
theorem c3_no_raise_when_fields_present (u : UsageSnapshot) (cid : String)
    (h : (u.stallsAvailable.isSome ∧ u.totalStalls.isSome)
      ∨ all_connectors_status_minus2 u.stallUsage = true) :
    isOk (validate_stalls_available u cid) = true := by
  cases h with
  | inr hskip => rw [validate_stalls_available_skip u cid hskip]; rfl
  | inl hsome =>
      obtain ⟨h1, h2⟩ := hsome
      obtain ⟨a, ha⟩ := Option.isSome_iff_exists.mp h1
      obtain ⟨t, ht⟩ := Option.isSome_iff_exists.mp h2
      rw [validate_stalls_available_eq u cid a t ha ht]
      split <;> rfl

/-- Witness for C3 amended: integer reported fields never raise, even
with an empty stall list. -/
theorem c3_no_raise_when_fields_present_witness :
    (((⟨none, none, some 0, some 0, []⟩ : UsageSnapshot).stallsAvailable.isSome
        ∧ (⟨none, none, some 0, some 0, []⟩ : UsageSnapshot).totalStalls.isSome)
      ∨ all_connectors_status_minus2
          (⟨none, none, some 0, some 0, []⟩ : UsageSnapshot).stallUsage = true) ∧
    isOk (validate_stalls_available ⟨none, none, some 0, some 0, []⟩ "charger1") = true :=
  ⟨Or.inl ⟨rfl, rfl⟩,
   c3_no_raise_when_fields_present ⟨none, none, some 0, some 0, []⟩ "charger1"
     (Or.inl ⟨rfl, rfl⟩)⟩

/-- Counterexample for C4: with stalls `[[0], [1], [-2]]` and reported
`stallsAvailable = 2`, `totalStalls = 2`, the validator returns two
errors, not exactly one; the derived not-available comparison (reported
0 vs calculated 1) fails as well. -/
theorem c4_counterexample :
    validate_stalls_available (snapshot_0_1_m2 (some 2) (some 2)) "charger1"
      = Except.ok
          [mkError "Stalls Available Mismatch"
              "Stalls available mismatch at Unknown Timestamp: Reported 2, Calculated 1"
              "Unknown Timestamp",
           mkError "Stalls Not Available Mismatch"
              "Stalls not available mismatch at Unknown Timestamp: Reported 0, Calculated 1"
              "Unknown Timestamp"] := by
  rfl

/-- C4 amended: that snapshot yields exactly two errors, a
`Stalls Available Mismatch` whose message contains
"Reported 2, Calculated 1" followed by a `Stalls Not Available
Mismatch` whose message does not contain it. -/
theorem c4_two_errors :
    (validate_stalls_available (snapshot_0_1_m2 (some 2) (some 2)) "charger1").map
        (fun l => l.map ValidationError.error_type)
      = Except.ok ["Stalls Available Mismatch", "Stalls Not Available Mismatch"] ∧
    (validate_stalls_available (snapshot_0_1_m2 (some 2) (some 2)) "charger1").map
        (fun l => l.map fun e => strContainsSub e.message "Reported 2, Calculated 1")
      = Except.ok [true, false] :=
  ⟨rfl, rfl⟩

/-- C7: with stalls `[[0], [1], [-2]]` and reported
`stallsAvailable = 1`, `totalStalls = 2`, the validator returns no
errors; the sentinel-only stall contributes to neither calculated
count (calculated available = 1, calculated total = 2). -/
theorem c7_consistent_snapshot_no_errors :
    validate_stalls_available (snapshot_0_1_m2 (some 1) (some 2)) "charger1"
      = Except.ok [] ∧
    stalls_available_calculated (snapshot_0_1_m2 (some 1) (some 2)).stallUsage = 1 ∧
    total_stalls_calculated (snapshot_0_1_m2 (some 1) (some 2)).stallUsage = 2 :=
  ⟨rfl, rfl, rfl⟩

/-- Counterexample for C8: in the all-sentinel skip case the
`stallsAvailable` comparison is unequal (reported 5 against calculated
0), yet no `Stalls Available Mismatch` error is emitted, so "each
present iff its comparison fails" does not hold for every snapshot. -/
theorem c8_counterexample :
    validate_stalls_available ⟨none, none, some 5, some 0, [⟨[⟨some (-2)⟩]⟩]⟩ "charger1"
      = Except.ok [] ∧
    (5 : Int) ≠ stalls_available_calculated [⟨[⟨some (-2)⟩]⟩] :=
  ⟨rfl, by decide⟩

/-- C8 amended: for a snapshot whose reported fields are integers, the
validation pass emits the timezone errors (at most one) first, then the
stall errors; when the snapshot is skipped by the all-sentinel rule the
stall list is empty, and otherwise each of the four stall error tags is
present iff its comparison is unequal, in the source order
available-mismatch, total-mismatch, not-available-mismatch,
calculation-error, hence at most four stall errors. -/
theorem c8_pass_shape (validate_timezone : String → Bool) (u : UsageSnapshot)
    (cid : String) (a t : Int) (l : List ValidationError)
    (ha : u.stallsAvailable = some a) (ht : u.totalStalls = some t)
    (hl : validate_stalls_available u cid = Except.ok l) :
    validate_usage_snapshot validate_timezone u cid
      = Except.ok (validate_timezone_data validate_timezone u cid ++ l) ∧
    (validate_timezone_data validate_timezone u cid).length ≤ 1 ∧
    l.length ≤ 4 ∧
    (all_connectors_status_minus2 u.stallUsage = true → l = []) ∧
    (all_connectors_status_minus2 u.stallUsage = false →
      l.map ValidationError.error_type =
        (if a ≠ stalls_available_calculated u.stallUsage then
            ["Stalls Available Mismatch"] else [])
        ++ (if t ≠ total_stalls_calculated u.stallUsage then
            ["Total Stalls Mismatch"] else [])
        ++ (if t - a ≠ total_stalls_calculated u.stallUsage
              - stalls_available_calculated u.stallUsage then
            ["Stalls Not Available Mismatch"] else [])
        ++ (if t ≠ a + (t - a) then
            ["Total Stalls Calculation Error"] else [])) := by
  have hnil : all_connectors_status_minus2 u.stallUsage = true → l = [] := by
    intro hskip
    have hs := validate_stalls_available_skip u cid hskip
    rw [hl] at hs
    simpa using hs.symm
  have hmap : all_connectors_status_minus2 u.stallUsage = false →
      l.map ValidationError.error_type =
        (if a ≠ stalls_available_calculated u.stallUsage then
            ["Stalls Available Mismatch"] else [])
        ++ (if t ≠ total_stalls_calculated u.stallUsage then
            ["Total Stalls Mismatch"] else [])
        ++ (if t - a ≠ total_stalls_calculated u.stallUsage
              - stalls_available_calculated u.stallUsage then
            ["Stalls Not Available Mismatch"] else [])
        ++ (if t ≠ a + (t - a) then
            ["Total Stalls Calculation Error"] else []) := by
    intro hskip
    have hch := errorTypes_characterization u cid a t ha ht hskip
    rw [hl] at hch
    simpa [errorTypes] using hch
  refine ⟨?_, ?_, ?_, hnil, hmap⟩
  · simp [validate_usage_snapshot, hl]
  · unfold validate_timezone_data
    cases u.timezone with
    | none => simp
    | some s =>
        dsimp only
        split_ifs <;> simp
  · by_cases hskip : all_connectors_status_minus2 u.stallUsage = true
    · simp [hnil hskip]
    · have hmap' := hmap (Bool.eq_false_iff.mpr hskip)
      have hlen : (l.map ValidationError.error_type).length ≤ 4 := by
        rw [hmap']
        split_ifs <;> simp
      simpa using hlen

/-- Witness for C8 amended: a consistent snapshot with a valid timezone
runs the whole pass and emits nothing. -/
theorem c8_pass_shape_witness :
    ((⟨none, some "America/Los_Angeles", some 1, some 1, [⟨[⟨some 0⟩]⟩]⟩ :
        UsageSnapshot).stallsAvailable = some 1) ∧
    ((⟨none, some "America/Los_Angeles", some 1, some 1, [⟨[⟨some 0⟩]⟩]⟩ :
        UsageSnapshot).totalStalls = some 1) ∧
    (validate_stalls_available
        ⟨none, some "America/Los_Angeles", some 1, some 1, [⟨[⟨some 0⟩]⟩]⟩ "charger1"
      = Except.ok []) ∧
    validate_usage_snapshot (fun _ => true)
        ⟨none, some "America/Los_Angeles", some 1, some 1, [⟨[⟨some 0⟩]⟩]⟩ "charger1"
      = Except.ok [] :=
  ⟨rfl, rfl, rfl,
   (c8_pass_shape (fun _ => true)
      ⟨none, some "America/Los_Angeles", some 1, some 1, [⟨[⟨some 0⟩]⟩]⟩ "charger1"
      1 1 [] rfl rfl rfl).1⟩

/-- The address sub-record of a charger (src/validate_charger_usages.py
lines 76-78), all keys read with `.get` and string defaults. -/
structure Address where
  fullThoroughfare : Option String
  locality : Option String
deriving Repr, DecidableEq

/-- The charger metadata record (src/validate_charger_usages.py lines
73-74, 86); only the presence of the `pricing` key matters, so the
field carries `Option Unit`. -/
structure ChargerRecord where
  name : Option String
  address : Option Address
  pricing : Option Unit
deriving Repr, DecidableEq

/-- The parsed body of a successful usage fetch
(src/validate_charger_usages.py lines 71-96). -/
structure ChargerDoc where
  charger : Option ChargerRecord
  usageData : List UsageSnapshot
deriving Repr, DecidableEq

/-- The outcome of the external usage fetch for one charger: either the
`requests.RequestException` branch of src/validate_charger_usages.py
lines 54-69, or the parsed response. -/
inductive FetchResult where
  | failure : FetchResult
  | success : ChargerDoc → FetchResult
deriving Repr, DecidableEq

/-- One row of `overall_results` (src/validate_charger_usages.py lines
60-66, 99-105, 191-197). -/
structure ChargerRow where
  chargerId : String
  name : String
  location : String
  usageDocsProcessed : Nat
  totalErrors : Nat
deriving Repr, DecidableEq

/-- The inline stall validation of the per-usage loop in `main`
(src/validate_charger_usages.py lines 136-189), an older revision of
the logic: a stall is counted available when any connector status
equals `0` (no sentinel handling), the total check compares against
`len(stall_usage)`, and the calculation check recomputes the total from
its own derivation.  The subtraction at line 176 raises when either
reported field is `None`, after the first two comparisons already ran. -/
def main_stall_errors (usage_data : UsageSnapshot) (charger_id : String) :
    Except String (List ValidationError) :=
  let timestamp := usage_data.timestamp.getD "Unknown Timestamp"
  let stalls_available_reported := usage_data.stallsAvailable
  let total_stalls := usage_data.totalStalls
  let stall_usage := usage_data.stallUsage
  let stalls_available_count : Int :=
    ((stall_usage.filter fun stall =>
        stall.connectors.any fun connector => connector.status == some 0).length : Int)
  let e1 :=
    if stalls_available_reported ≠ some stalls_available_count then
      [stalls_available_mismatch_error timestamp stalls_available_reported
        stalls_available_count]
    else []
  let e2 :=
    if total_stalls ≠ some (stall_usage.length : Int) then
      [mkError "Total Stalls Mismatch"
        ("Total stalls mismatch at " ++ timestamp ++ ": Reported " ++ pyRepr total_stalls
          ++ ", Actual " ++ toString stall_usage.length)
        timestamp]
    else []
  match total_stalls, stalls_available_reported with
  | some t, some a =>
    let stalls_not_available := t - a
    let calculated_total_stalls := a + stalls_not_available
    let e3 :=
      if t ≠ calculated_total_stalls then
        [mkError "Total Stalls Calculation Error"
          ("Total stalls calculation error at " ++ timestamp ++ ": Expected " ++ toString t
            ++ ", Calculated " ++ toString calculated_total_stalls)
          timestamp]
      else []
    Except.ok (e1 ++ e2 ++ e3)
  | _, _ => Except.error "TypeError"

/-- The per-usage loop of `main` (src/validate_charger_usages.py lines
110-189): for each usage document, the timezone checks run first (the
inline copies of lines 114-133 behave exactly like
`validate_timezone_data`), then the inline stall checks; an exception
in any document aborts the whole run. -/
def process_usages (validate_timezone : String → Bool) (charger_id : String) :
    List UsageSnapshot → Except String (List ValidationError)
  | [] => Except.ok []
  | usage_data :: rest =>
    match main_stall_errors usage_data charger_id with
    | Except.error e => Except.error e
    | Except.ok stall_errors =>
      match process_usages validate_timezone charger_id rest with
      | Except.error e => Except.error e
      | Except.ok rest_errors =>
          Except.ok (validate_timezone_data validate_timezone usage_data charger_id
            ++ stall_errors ++ rest_errors)

/-- One iteration of the charger loop of `main`
(src/validate_charger_usages.py lines 48-220), producing the
`overall_results` row and the `charger_error_details` list for one
charger.  On a fetch failure (lines 54-69) the code increments only the
`API Errors` counter, appends a row with `N/A` display fields, zero
docs processed and one total error, and leaves the details list empty.
On success, `Total Errors` equals the number of detail records, since
every other counter increment is paired with a detail append. -/
def process_charger (validate_timezone : String → Bool) (charger_id : String)
    (fetch : FetchResult) : Except String (ChargerRow × List ValidationError) :=
  match fetch with
  | FetchResult.failure =>
      Except.ok (⟨charger_id, "N/A", "N/A", 0, 1⟩, [])
  | FetchResult.success data =>
    let charger := data.charger.getD ⟨none, none, none⟩
    let charger_name := charger.name.getD "Unknown Name"
    let address := charger.address.getD ⟨none, none⟩
    let location_str := address.fullThoroughfare.getD "Unknown Address" ++ ", "
      ++ address.locality.getD "Unknown Locality"
    let pricing_errors :=
      if charger.pricing.isNone then
        [mkError "Pricing Missing"
          ("Pricing object missing for charger " ++ charger_id) "N/A"]
      else []
    match data.usageData with
    | [] =>
        Except.ok (⟨charger_id, charger_name, location_str, 0, pricing_errors.length⟩,
          pricing_errors)
    | us =>
      match process_usages validate_timezone charger_id us with
      | Except.error e => Except.error e
      | Except.ok usage_errors =>
          Except.ok (⟨charger_id, charger_name, location_str, us.length,
            (pricing_errors ++ usage_errors).length⟩, pricing_errors ++ usage_errors)

/-- The charger loop of `main` over the fetched charger-id list, with
the two external fetches supplied as input data: each charger id is
paired with the outcome of its usage fetch. -/
def main_loop (validate_timezone : String → Bool) :
    List (String × FetchResult) → Except String (List (ChargerRow × List ValidationError))
  | [] => Except.ok []
  | (charger_id, fetch) :: rest =>
    match process_charger validate_timezone charger_id fetch with
    | Except.error e => Except.error e
    | Except.ok r =>
      match main_loop validate_timezone rest with
      | Except.error e => Except.error e
      | Except.ok rs => Except.ok (r :: rs)

/-- Counterexample for C5: the fetch-failure branch leaves the
error-detail list empty; the single error is recorded only in the
per-type counters, so the details contain no `ApiError`-kind entry. -/
theorem c5_counterexample :
    process_charger (fun _ => true) "charger1" FetchResult.failure
      = Except.ok (⟨"charger1", "N/A", "N/A", 0, 1⟩, ([] : List ValidationError)) := by
  rfl

/-- C5 amended: a charger whose usage fetch fails contributes a row
with placeholder display fields, zero usage docs processed and total
errors one, together with an empty detail list, and the remaining
chargers are processed exactly as they would be without it. -/
theorem c5_fetch_failure_continues (validate_timezone : String → Bool)
    (charger_id : String) (rest : List (String × FetchResult)) :
    main_loop validate_timezone ((charger_id, FetchResult.failure) :: rest)
      = (main_loop validate_timezone rest).map
          (fun rs => (⟨charger_id, "N/A", "N/A", 0, 1⟩,
            ([] : List ValidationError)) :: rs) := by
  cases h : main_loop validate_timezone rest <;>
    simp [main_loop, process_charger, Except.map, h]

end PortaValidator
